import Mathlib

/-!
Shallow embedding of `push_data.py` from the Network-Security-System
repository, together with theorems settling the frozen claims about it.

The script loads a CSV file with pandas, normalizes NaN cells to `None`,
and bulk-inserts the resulting records into a MongoDB collection through
pymongo.  External effects (the environment, the filesystem and the
MongoDB server) are modelled explicitly: the environment is a function
`String → Option String`, the filesystem a function `String → Option RawCSV`,
and the server a `Store` value that fixes the outcome of the ping and the
per-document accept/reject decision of the bulk write.
-/

namespace PushData

/-- A cell value of a loaded record, mirroring the values a pandas
DataFrame cell can hold after `pd.read_csv`: a string, an integer,
a boolean, the floating-point NaN sentinel, or (after normalization)
an explicit null. -/
inductive Value where
  | str (s : String)
  | num (n : Int)
  | bool (b : Bool)
  | nan
  | null
deriving DecidableEq, Repr

/-- A record: one row as a mapping from column name to value,
as produced by `df.to_dict(orient="records")`. -/
abbrev Rec := List (String × Value)

/-- Model of the repository's `NetworkSecurityException(e, sys)`:
a single exception kind carrying a diagnostic message. -/
structure NSException where
  message : String
deriving DecidableEq, Repr

/-- Raw text of a CSV file: a header row and data rows of cell texts. -/
structure RawCSV where
  header : List String
  rows : List (List String)
deriving DecidableEq, Repr

/-- A parsed pandas DataFrame: column names plus rows of cell values. -/
structure DataFrame where
  header : List String
  rows : List (List Value)
deriving DecidableEq, Repr

/-- Default missing-value markers recognized by `pd.read_csv`
(a representative subset of pandas' `na_values`). -/
def na_markers : List String := ["", "NaN", "nan", "NA", "N/A", "n/a", "null", "NULL"]

/-- Accumulate a decimal number over a character list, failing on the
first non-digit. -/
def parseDigitsAux : List Char → Nat → Option Nat
  | [], acc => Option.some acc
  | c :: cs, acc =>
      if c.isDigit then parseDigitsAux cs (acc * 10 + (c.toNat - 48))
      else Option.none

/-- Parse an optionally negated integer literal, as pandas' numeric
inference does for integer columns. -/
def parseIntText (s : String) : Option Int :=
  match s.data with
  | [] => Option.none
  | c :: cs =>
      if c = '-' then
        match cs with
        | [] => Option.none
        | _ => (parseDigitsAux cs 0).map (fun n => -(Int.ofNat n))
      else (parseDigitsAux (c :: cs) 0).map Int.ofNat

/-- Model of pandas cell parsing: a missing-value marker becomes the
floating-point NaN sentinel, boolean literals become booleans, integer
literals become numbers, anything else stays a string. -/
def parseCell (s : String) : Value :=
  if s ∈ na_markers then Value.nan
  else if s = "True" then Value.bool true
  else if s = "False" then Value.bool false
  else match parseIntText s with
    | some n => Value.num n
    | none => Value.str s

/-- Model of `pd.read_csv(file_path)`: fails when the file is missing or
its rows do not parse as a table against the header; otherwise parses
every cell, with missing cells becoming the NaN sentinel. -/
def pd_read_csv (file : Option RawCSV) : Except String DataFrame :=
  match file with
  | Option.none => Except.error "No such file or directory"
  | Option.some raw =>
      if raw.rows.all (fun r => r.length == raw.header.length) then
        Except.ok ⟨raw.header, raw.rows.map (fun r => r.map parseCell)⟩
      else
        Except.error "Error tokenizing data"

/-- Model of `df.replace({np.nan: None})` on a single cell: the NaN sentinel is
replaced by null, every other value is kept. -/
def replace_nan_with_none (v : Value) : Value :=
  match v with
  | Value.nan => Value.null
  | v => v

/-- Model of `df.replace({np.nan: None})` on the whole DataFrame. -/
def df_replace_nan (df : DataFrame) : DataFrame :=
  ⟨df.header, df.rows.map (fun r => r.map replace_nan_with_none)⟩

/-- Model of `df.to_dict(orient="records")`: each row becomes a record keyed by
the header's column names, preserving row order. -/
def df_to_records (df : DataFrame) : List Rec :=
  df.rows.map (fun r => df.header.zip r)

/-- Model of pymongo/MongoDB errors that `insert_data_mongodb` can see. -/
inductive MongoError where
  | bulkWriteError (writeErrors : List Nat) (nInserted : Nat)
  | serverSelectionTimeout (msg : String)
  | invalidOperation (msg : String)
  | other (msg : String)
deriving DecidableEq, Repr

/-- The message text a `MongoError` carries when converted to a string. -/
def mongoErrorMessage : MongoError → String
  | MongoError.bulkWriteError writeErrors _ =>
      "batch op errors occurred, writeErrors=" ++ toString writeErrors
  | MongoError.serverSelectionTimeout m => m
  | MongoError.invalidOperation m => m
  | MongoError.other m => m

/-- The MongoDB server and target collections, as seen by one invocation:
the outcome of the liveness ping, the store's per-document accept/reject
decision for a submitted batch (index ↦ document ↦ accepted?), and the
current contents of each (database, collection) pair. -/
structure Store where
  pingResult : Except MongoError Unit
  accept : Nat → Rec → Bool
  data : String × String → List Rec

/-- Observable operations issued against the server, used to state that
the bulk write is never invoked on a failed ping. -/
inductive MongoOp where
  | ping
  | insertMany (db coll : String) (docs : List Rec)
deriving DecidableEq, Repr

/-- Model of pymongo's `Collection.insert_many(docs, ordered=False)`:
an empty document list is rejected up front with an `InvalidOperation`
error and no write happens (pymongo's documented behavior); otherwise
every document is attempted, the accepted ones are persisted, and if any
document was rejected a `BulkWriteError` is raised whose details carry
the list of failing row indexes and the count of successful inserts,
while the accepted documents remain persisted. -/
def mongo_insert_many (store : Store) (db coll : String) (docs : List Rec) :
    Except MongoError (List Nat) × Store :=
  if docs.isEmpty then
    (Except.error (MongoError.invalidOperation "documents must be a non-empty list"), store)
  else
    let indexed := docs.enum
    let accepted := indexed.filter (fun p => store.accept p.1 p.2)
    let rejected := indexed.filter (fun p => !(store.accept p.1 p.2))
    let store' : Store :=
      { store with
        data := fun k =>
          if k = (db, coll) then store.data k ++ accepted.map Prod.snd
          else store.data k }
    if rejected.isEmpty then
      (Except.ok (indexed.map Prod.fst), store')
    else
      (Except.error (MongoError.bulkWriteError (rejected.map Prod.fst) accepted.length), store')

/-- Model of `certifi.where()`: the path of the trusted CA bundle. -/
def certifi_where : String := "certifi/cacert.pem"

/-- The client configuration that `MongoClient(uri, ...)` receives in
`get_mongo_client`. -/
structure MongoClientConfig where
  uri : String
  tls : Bool
  tlsCAFile : String
  serverSelectionTimeoutMS : Nat
deriving DecidableEq, Repr

/-- Embedding of `get_mongo_client(uri)`: create a secure client configuration with
TLS forced on, the certifi CA bundle, and a 15000 ms server-selection
timeout. -/
def get_mongo_client (uri : String) : MongoClientConfig :=
  { uri := uri
    tls := true
    tlsCAFile := certifi_where
    serverSelectionTimeoutMS := 15000 }

/-- The remediation hint appended to the connectivity failure message in
`insert_data_mongodb`'s `ServerSelectionTimeoutError` handler. -/
def connectivityHint : String :=
  " Check: (1) IP allowlist in Atlas, (2) URI uses mongodb+srv, (3) network/proxy SSL inspection, (4) system certs."

/-- The chain of `except` clauses of `insert_data_mongodb`, mapping a
raised pymongo error to the `NetworkSecurityException` it is re-raised
as: a `BulkWriteError` is logged, a count is computed from its
`writeErrors` list (and, as in the source, discarded), and the error is
wrapped; a `ServerSelectionTimeoutError` is wrapped with the
connectivity remediation hint; anything else is wrapped as-is. -/
def classifyMongoError : MongoError → NSException
  | MongoError.bulkWriteError writeErrors nInserted =>
      let _inserted := writeErrors.length
      NSException.mk (mongoErrorMessage (MongoError.bulkWriteError writeErrors nInserted))
  | MongoError.serverSelectionTimeout m =>
      NSException.mk ("Cannot connect to MongoDB: " ++ m ++ "." ++ connectivityHint)
  | e => NSException.mk (mongoErrorMessage e)

/-- Python's `str.strip()`: remove leading and trailing whitespace. -/
def pyStrip (s : String) : String :=
  String.mk (((s.data.dropWhile Char.isWhitespace).reverse.dropWhile Char.isWhitespace).reverse)

/-- Embedding of `_require_env(name)`: read the environment variable; raise a
`NetworkSecurityException` when it is absent or blank
(`not val or not val.strip()`), otherwise return its value. -/
def _require_env (env : String → Option String) (name : String) :
    Except NSException String :=
  match env name with
  | Option.none =>
      Except.error (NSException.mk ("Missing required environment variable: " ++ name))
  | Option.some val =>
      if val = "" ∨ pyStrip val = "" then
        Except.error (NSException.mk ("Missing required environment variable: " ++ name))
      else
        Except.ok val

/-- The `NetworkDataExtract` object: construction validated the
connection string and stored it. -/
structure NetworkDataExtract where
  mongo_uri : String
deriving DecidableEq, Repr

/-- Embedding of `NetworkDataExtract.__init__`: validate `MONGO_DB_URL` via
`_require_env`, re-wrapping a validation failure in a
`NetworkSecurityException`; no other effect is performed (in particular
no network call: the constructor touches neither a `Store` nor a
filesystem). -/
def NetworkDataExtract.init (env : String → Option String) :
    Except NSException NetworkDataExtract :=
  match _require_env env "MONGO_DB_URL" with
  | Except.error e => Except.error (NSException.mk e.message)
  | Except.ok uri => Except.ok ⟨uri⟩

/-- Embedding of `NetworkDataExtract.csv_to_json_convertor(file_path)`: read the CSV
with pandas, replace NaN with None so Mongo can store them as nulls,
and return the rows as records; any failure is wrapped in a
`NetworkSecurityException`. -/
def NetworkDataExtract.csv_to_json_convertor (_self : NetworkDataExtract)
    (fs : String → Option RawCSV) (file_path : String) :
    Except NSException (List Rec) :=
  match pd_read_csv (fs file_path) with
  | Except.error msg => Except.error (NSException.mk msg)
  | Except.ok df => Except.ok (df_to_records (df_replace_nan df))

/-- The result of one `insert_data_mongodb` invocation: the returned
count or raised exception, the server state afterwards, and the trace of
operations issued against the server. -/
structure InsertRun where
  outcome : Except NSException Nat
  store : Store
  ops : List MongoOp

/-- Embedding of `NetworkDataExtract.insert_data_mongodb(records, database, collection)`:
build the secure client, ping the server (a ping failure is classified by
the `except` chain and the bulk write is never issued), then submit all
records as one unordered `insert_many` and return `len(result.inserted_ids)`;
any raised pymongo error is mapped by `classifyMongoError`. -/
def NetworkDataExtract.insert_data_mongodb (self : NetworkDataExtract)
    (store : Store) (records : List Rec) (database collection : String) :
    InsertRun :=
  let _client := get_mongo_client self.mongo_uri
  match store.pingResult with
  | Except.error e =>
      { outcome := Except.error (classifyMongoError e)
        store := store
        ops := [MongoOp.ping] }
  | Except.ok _ =>
      match mongo_insert_many store database collection records with
      | (Except.ok ids, store') =>
          { outcome := Except.ok ids.length
            store := store'
            ops := [MongoOp.ping, MongoOp.insertMany database collection records] }
      | (Except.error e, store') =>
          { outcome := Except.error (classifyMongoError e)
            store := store'
            ops := [MongoOp.ping, MongoOp.insertMany database collection records] }

/-- The literal constants of the `__main__` block. -/
def FILE_PATH : String := "Network_Data/phisingData.csv"

/-- The target database name constant of the `__main__` block. -/
def DATABASE : String := "CHARUKAGUN"

/-- The target collection name constant of the `__main__` block. -/
def COLLECTION : String := "NetworkData"

/-- The `__main__` block: construct the extractor, load the CSV, print
the loaded count, insert, print the inserted count; on any exception,
print it and re-raise.  Returns the printed lines and the final outcome
(`Except.error e` models the re-raise, terminating the process with
non-zero status). -/
def main_run (env : String → Option String) (fs : String → Option RawCSV)
    (store : Store) : List String × Except NSException Unit :=
  match NetworkDataExtract.init env with
  | Except.error e => ([e.message], Except.error e)
  | Except.ok extractor =>
    match extractor.csv_to_json_convertor fs FILE_PATH with
    | Except.error e => ([e.message], Except.error e)
    | Except.ok records =>
      let line1 := "Loaded " ++ toString records.length ++ " records from CSV"
      let run := extractor.insert_data_mongodb store records DATABASE COLLECTION
      match run.outcome with
      | Except.error e => ([line1, e.message], Except.error e)
      | Except.ok n => ([line1, "Inserted " ++ toString n ++ " records"], Except.ok ())

/-! ### Concrete fixtures used by the witnesses and counterexample runs -/

/-- A 3-row CSV fixture: one empty cell and one literal "NaN" cell. -/
def rawC : RawCSV := ⟨["a", "b"], [["1", ""], ["x", "NaN"], ["True", "2"]]⟩

/-- The records the loader produces from `rawC`. -/
def recsC : List Rec :=
  [[("a", Value.num 1), ("b", Value.null)],
   [("a", Value.str "x"), ("b", Value.null)],
   [("a", Value.bool true), ("b", Value.num 2)]]

/-- An extractor fixture with a stored connection string. -/
def exC : NetworkDataExtract := ⟨"mongodb+srv://example"⟩

/-- A filesystem fixture serving `rawC` at every path. -/
def fsC : String → Option RawCSV := fun _ => Option.some rawC

/-- An environment fixture providing a non-blank `MONGO_DB_URL`. -/
def envC : String → Option String := fun _ => Option.some "mongodb+srv://example"

/-- A server fixture whose ping succeeds and which accepts every document. -/
def storeAll : Store := ⟨Except.ok (), fun _ _ => true, fun _ => []⟩

/-- A server fixture whose ping fails with a server-selection timeout. -/
def storePingFail : Store :=
  ⟨Except.error (MongoError.serverSelectionTimeout "timed out"), fun _ _ => true, fun _ => []⟩

/-- A record fixture with a unique-indexed key. -/
def dupRec : Rec := [("key", Value.num 1)]

/-- A server fixture whose ping succeeds and which, for a submitted
batch, accepts only the first document and rejects every later one as a
duplicate of its unique-indexed key. -/
def dupStore : Store := ⟨Except.ok (), fun i _ => i == 0, fun _ => []⟩

/-! ### Helper lemmas -/

/-- When `insert_many` succeeds, the returned id list covers every
submitted document. -/
theorem mongo_insert_many_ok_length (store : Store) (db coll : String)
    (docs : List Rec) (ids : List Nat) (store' : Store)
    (h : mongo_insert_many store db coll docs = (Except.ok ids, store')) :
    ids.length = docs.length := by
  simp only [mongo_insert_many] at h
  split at h
  · cases h
  · split at h
    · rw [Prod.mk.injEq] at h
      obtain ⟨h1, _⟩ := h
      rw [Except.ok.injEq] at h1
      subst h1
      simp [List.enum_length]
    · cases h

/-- The NaN-to-None normalization never leaves a NaN sentinel behind. -/
theorem replace_nan_with_none_ne_nan (v : Value) :
    replace_nan_with_none v ≠ Value.nan := by
  cases v <;> simp [replace_nan_with_none]

/-- Cell parsing never produces the literal string "NaN": that text is a
missing-value marker and parses to the NaN sentinel instead. -/
theorem parseCell_ne_str_nan (s : String) : parseCell s ≠ Value.str "NaN" := by
  unfold parseCell
  split
  · intro hc; cases hc
  next hm =>
    split
    · intro hc; cases hc
    · split
      · intro hc; cases hc
      · split
        · intro hc; cases hc
        · intro hc
          injection hc with hs
          subst hs
          exact hm (by decide)

/-- The full cell pipeline (parse, then normalize) yields neither the
NaN sentinel nor the string "NaN". -/
theorem cell_pipeline_safe (s : String) :
    replace_nan_with_none (parseCell s) ≠ Value.nan ∧
    replace_nan_with_none (parseCell s) ≠ Value.str "NaN" := by
  refine ⟨replace_nan_with_none_ne_nan _, ?_⟩
  have h := parseCell_ne_str_nan s
  cases hp : parseCell s <;> simp_all [replace_nan_with_none]

/-- Successful loading yields exactly the normalized zip of header and
parsed rows. -/
theorem csv_ok_form (self : NetworkDataExtract) (fs : String → Option RawCSV)
    (path : String) (raw : RawCSV) (recs : List Rec)
    (hf : fs path = Option.some raw)
    (h : self.csv_to_json_convertor fs path = Except.ok recs) :
    recs = raw.rows.map
      (fun r => raw.header.zip (r.map (fun c => replace_nan_with_none (parseCell c)))) := by
  unfold NetworkDataExtract.csv_to_json_convertor pd_read_csv at h
  rw [hf] at h
  dsimp only at h
  split at h
  · cases h
  next df heq =>
    rw [Except.ok.injEq] at h
    subst h
    split at heq
    · rw [Except.ok.injEq] at heq
      subst heq
      unfold df_to_records df_replace_nan
      simp [List.map_map, Function.comp_def]
    · cases heq

/-! ### Claims -/

/-- C8: for every URI, `get_mongo_client` always configures the
connection with TLS enabled, the certifi trusted certificate bundle as
CA file, and a server-selection timeout fixed at the constant 15000 ms,
while passing the URI through unchanged. -/
theorem c8_client_always_secure_config (uri : String) :
    (get_mongo_client uri).tls = true ∧
    (get_mongo_client uri).tlsCAFile = certifi_where ∧
    (get_mongo_client uri).serverSelectionTimeoutMS = 15000 ∧
    (get_mongo_client uri).uri = uri :=
  ⟨rfl, rfl, rfl, rfl⟩

/-- C3: if the `MONGO_DB_URL` environment variable is absent, or present
but blank (empty or whitespace-only), constructing `NetworkDataExtract`
fails with the configuration error; if it is present and non-blank,
construction succeeds and stores the URI.  The constructor's embedding
performs no store or filesystem operation, so the failure precedes any
network call or other I/O. -/
theorem c3_init_validates_connection_string (env : String → Option String) :
    (env "MONGO_DB_URL" = Option.none →
      NetworkDataExtract.init env
        = Except.error (NSException.mk "Missing required environment variable: MONGO_DB_URL")) ∧
    (∀ v, env "MONGO_DB_URL" = Option.some v → pyStrip v = "" →
      NetworkDataExtract.init env
        = Except.error (NSException.mk "Missing required environment variable: MONGO_DB_URL")) ∧
    (∀ v, env "MONGO_DB_URL" = Option.some v → pyStrip v ≠ "" →
      NetworkDataExtract.init env = Except.ok ⟨v⟩) := by
  refine ⟨?_, ?_, ?_⟩
  · intro h
    unfold NetworkDataExtract.init _require_env
    rw [h]
    rfl
  · intro v h hb
    unfold NetworkDataExtract.init _require_env
    rw [h]
    dsimp only
    rw [if_pos (show v = "" ∨ pyStrip v = "" from Or.inr hb)]
    rfl
  · intro v h hb
    unfold NetworkDataExtract.init _require_env
    rw [h]
    dsimp only
    rw [if_neg (show ¬(v = "" ∨ pyStrip v = "") from ?_)]
    rintro (hv | hv)
    · subst hv
      exact hb rfl
    · exact hb hv

/-- Witness for C3 at concrete environments: a missing variable fails, a
whitespace-only value fails, and `mongodb+srv://example` is accepted and
stored. -/
theorem c3_init_validates_connection_string_witness :
    NetworkDataExtract.init (fun _ => Option.none)
      = Except.error (NSException.mk "Missing required environment variable: MONGO_DB_URL") ∧
    NetworkDataExtract.init (fun _ => Option.some "   ")
      = Except.error (NSException.mk "Missing required environment variable: MONGO_DB_URL") ∧
    NetworkDataExtract.init envC = Except.ok ⟨"mongodb+srv://example"⟩ :=
  ⟨(c3_init_validates_connection_string (fun _ => Option.none)).1 rfl,
   (c3_init_validates_connection_string (fun _ => Option.some "   ")).2.1 "   " rfl (by decide),
   (c3_init_validates_connection_string envC).2.2 "mongodb+srv://example" rfl (by decide)⟩

/-- C1 (failing run): submitting 2 records where the store rejects the
second as a duplicate does not make `insert_data_mongodb` return 1 — the
`BulkWriteError` handler computes a count from the write errors but then
raises the wrapped exception, so the call raises instead of returning;
the accepted first document is nevertheless persisted by the store. -/
theorem c1_duplicate_batch_raises_instead_of_returning :
    (exC.insert_data_mongodb dupStore [dupRec, dupRec] "db" "coll").outcome
      = Except.error (classifyMongoError (MongoError.bulkWriteError [1] 1)) ∧
    (exC.insert_data_mongodb dupStore [dupRec, dupRec] "db" "coll").outcome
      ≠ Except.ok 1 ∧
    (exC.insert_data_mongodb dupStore [dupRec, dupRec] "db" "coll").store.data ("db", "coll")
      = [dupRec] := by
  have h1 : (exC.insert_data_mongodb dupStore [dupRec, dupRec] "db" "coll").outcome
      = Except.error (classifyMongoError (MongoError.bulkWriteError [1] 1)) := rfl
  refine ⟨h1, fun hc => ?_, rfl⟩
  rw [h1] at hc
  exact Except.noConfusion hc

/-- C10: calling `insert_data_mongodb` with an empty records list and a
healthy ping does not return 0: the modelled pymongo `insert_many`
rejects an empty document list with `InvalidOperation`, which the
catch-all branch wraps into the uniform exception kind, and the store
is left unchanged (no write attempted). -/
theorem c10_empty_records_raises (self : NetworkDataExtract) (store : Store)
    (db coll : String) (h : store.pingResult = Except.ok ()) :
    (self.insert_data_mongodb store [] db coll).outcome
      = Except.error (NSException.mk "documents must be a non-empty list") ∧
    (∀ n, (self.insert_data_mongodb store [] db coll).outcome ≠ Except.ok n) ∧
    (self.insert_data_mongodb store [] db coll).store = store := by
  have h1 : (self.insert_data_mongodb store [] db coll).outcome
      = Except.error (NSException.mk "documents must be a non-empty list") := by
    unfold NetworkDataExtract.insert_data_mongodb
    rw [h]
    rfl
  refine ⟨h1, fun n hc => ?_, ?_⟩
  · rw [h1] at hc
    exact Except.noConfusion hc
  · unfold NetworkDataExtract.insert_data_mongodb
    rw [h]
    rfl

/-- Witness for C10 at a concrete all-accepting store with a healthy
ping. -/
theorem c10_empty_records_raises_witness :
    (exC.insert_data_mongodb storeAll [] "db" "coll").outcome
      = Except.error (NSException.mk "documents must be a non-empty list") ∧
    (∀ n, (exC.insert_data_mongodb storeAll [] "db" "coll").outcome ≠ Except.ok n) ∧
    (exC.insert_data_mongodb storeAll [] "db" "coll").store = storeAll :=
  c10_empty_records_raises exC storeAll "db" "coll" rfl

/-- C2: for every records list, database name and collection name, if
the liveness ping fails (server selection times out against the fresh
connection), `insert_data_mongodb` aborts with the connectivity-classified
failure, the bulk write is never invoked (the operation trace holds only
the ping), and the remote store state is unchanged. -/
theorem c2_ping_failure_aborts_before_write (self : NetworkDataExtract)
    (store : Store) (records : List Rec) (db coll m : String)
    (h : store.pingResult = Except.error (MongoError.serverSelectionTimeout m)) :
    (self.insert_data_mongodb store records db coll).outcome
      = Except.error (NSException.mk ("Cannot connect to MongoDB: " ++ m ++ "." ++ connectivityHint)) ∧
    (self.insert_data_mongodb store records db coll).ops = [MongoOp.ping] ∧
    (self.insert_data_mongodb store records db coll).store = store := by
  unfold NetworkDataExtract.insert_data_mongodb
  rw [h]
  exact ⟨rfl, rfl, rfl⟩

/-- Witness for C2 at a concrete failing-ping store: the outcome is the
wrapped connectivity error, no bulk write appears in the trace, and the
store is unchanged. -/
theorem c2_ping_failure_aborts_before_write_witness :
    (exC.insert_data_mongodb storePingFail [dupRec] "db" "coll").outcome
      = Except.error (NSException.mk ("Cannot connect to MongoDB: " ++ "timed out" ++ "." ++ connectivityHint)) ∧
    (exC.insert_data_mongodb storePingFail [dupRec] "db" "coll").ops = [MongoOp.ping] ∧
    (exC.insert_data_mongodb storePingFail [dupRec] "db" "coll").store = storePingFail :=
  c2_ping_failure_aborts_before_write exC storePingFail [dupRec] "db" "coll" "timed out" rfl

/-- C7: when server selection fails, `insert_data_mongodb` raises the
wrapped exception whose message carries the original cause and a
remediation hint mentioning the IP allowlist, the URI scheme
(`mongodb+srv`), proxy SSL interception, and the system certificates;
no partial count is returned. -/
theorem c7_server_selection_failure_message (self : NetworkDataExtract)
    (store : Store) (records : List Rec) (db coll m : String)
    (h : store.pingResult = Except.error (MongoError.serverSelectionTimeout m)) :
    (self.insert_data_mongodb store records db coll).outcome
      = Except.error (NSException.mk ("Cannot connect to MongoDB: " ++ m ++ "." ++ connectivityHint)) ∧
    (∀ n, (self.insert_data_mongodb store records db coll).outcome ≠ Except.ok n) ∧
    (∃ a b, "Cannot connect to MongoDB: " ++ m ++ "." ++ connectivityHint = a ++ m ++ b) ∧
    (∃ a b, connectivityHint = a ++ "IP allowlist" ++ b) ∧
    (∃ a b, connectivityHint = a ++ "mongodb+srv" ++ b) ∧
    (∃ a b, connectivityHint = a ++ "proxy SSL inspection" ++ b) ∧
    (∃ a b, connectivityHint = a ++ "system certs" ++ b) := by
  have h1 : (self.insert_data_mongodb store records db coll).outcome
      = Except.error (NSException.mk ("Cannot connect to MongoDB: " ++ m ++ "." ++ connectivityHint)) := by
    unfold NetworkDataExtract.insert_data_mongodb
    rw [h]
    rfl
  refine ⟨h1, fun n hc => ?_, ?_, ?_, ?_, ?_, ?_⟩
  · rw [h1] at hc
    exact Except.noConfusion hc
  · exact ⟨"Cannot connect to MongoDB: ", "." ++ connectivityHint, by
      simp [String.append_assoc]⟩
  · exact ⟨" Check: (1) ",
      " in Atlas, (2) URI uses mongodb+srv, (3) network/proxy SSL inspection, (4) system certs.", rfl⟩
  · exact ⟨" Check: (1) IP allowlist in Atlas, (2) URI uses ",
      ", (3) network/proxy SSL inspection, (4) system certs.", rfl⟩
  · exact ⟨" Check: (1) IP allowlist in Atlas, (2) URI uses mongodb+srv, (3) network/",
      ", (4) system certs.", rfl⟩
  · exact ⟨" Check: (1) IP allowlist in Atlas, (2) URI uses mongodb+srv, (3) network/proxy SSL inspection, (4) ",
      ".", rfl⟩

/-- Witness for C7 at a concrete unreachable server. -/
theorem c7_server_selection_failure_message_witness :
    (exC.insert_data_mongodb storePingFail [] "db" "coll").outcome
      = Except.error (NSException.mk ("Cannot connect to MongoDB: " ++ "timed out" ++ "." ++ connectivityHint)) ∧
    (∀ n, (exC.insert_data_mongodb storePingFail [] "db" "coll").outcome ≠ Except.ok n) ∧
    (∃ a b, "Cannot connect to MongoDB: " ++ "timed out" ++ "." ++ connectivityHint
      = a ++ "timed out" ++ b) ∧
    (∃ a b, connectivityHint = a ++ "IP allowlist" ++ b) ∧
    (∃ a b, connectivityHint = a ++ "mongodb+srv" ++ b) ∧
    (∃ a b, connectivityHint = a ++ "proxy SSL inspection" ++ b) ∧
    (∃ a b, connectivityHint = a ++ "system certs" ++ b) :=
  c7_server_selection_failure_message exC storePingFail [] "db" "coll" "timed out" rfl

/-- C4: for every parsable input CSV, every value in the records the
loader returns is neither the floating-point NaN sentinel nor the string
"NaN"; and every missing-value marker (the source of missing/NaN cells)
is normalized to null by the cell pipeline before leaving the loader. -/
theorem c4_missing_cells_normalized_to_null (self : NetworkDataExtract)
    (fs : String → Option RawCSV) (path : String) (raw : RawCSV) (recs : List Rec)
    (hf : fs path = Option.some raw)
    (h : self.csv_to_json_convertor fs path = Except.ok recs) :
    (∀ rec ∈ recs, ∀ p ∈ rec, p.2 ≠ Value.nan ∧ p.2 ≠ Value.str "NaN") ∧
    (∀ s ∈ na_markers, replace_nan_with_none (parseCell s) = Value.null) := by
  constructor
  · have hform := csv_ok_form self fs path raw recs hf h
    subst hform
    intro rec hrec p hp
    rw [List.mem_map] at hrec
    obtain ⟨r, hr, hrec⟩ := hrec
    subst hrec
    have hp2 := (List.of_mem_zip hp).2
    rw [List.mem_map] at hp2
    obtain ⟨c, hc, hp2⟩ := hp2
    rw [← hp2]
    exact cell_pipeline_safe c
  · intro s hs
    unfold parseCell
    rw [if_pos hs]
    rfl

/-- Witness for C4 on the concrete 3-row fixture (an empty cell and a
literal "NaN" cell): loading succeeds and the loaded records satisfy
the no-NaN invariant. -/
theorem c4_missing_cells_normalized_to_null_witness :
    fsC FILE_PATH = Option.some rawC ∧
    exC.csv_to_json_convertor fsC FILE_PATH = Except.ok recsC ∧
    (∀ rec ∈ recsC, ∀ p ∈ rec, p.2 ≠ Value.nan ∧ p.2 ≠ Value.str "NaN") :=
  ⟨rfl, rfl,
   (c4_missing_cells_normalized_to_null exC fsC FILE_PATH rawC recsC rfl rfl).1⟩

/-- C5: for every parsable CSV with a header row and N data rows, the
loader returns exactly N records, the i-th record is built from the i-th
data row (order preserved), and each record is keyed by the header's
column names. -/
theorem c5_row_count_order_and_keys (self : NetworkDataExtract)
    (fs : String → Option RawCSV) (path : String) (raw : RawCSV) (recs : List Rec)
    (hf : fs path = Option.some raw)
    (hwf : ∀ r ∈ raw.rows, r.length = raw.header.length)
    (h : self.csv_to_json_convertor fs path = Except.ok recs) :
    recs.length = raw.rows.length ∧
    (∀ i (hi : i < recs.length) (hi2 : i < raw.rows.length),
      recs.get ⟨i, hi⟩
        = raw.header.zip ((raw.rows.get ⟨i, hi2⟩).map
            (fun c => replace_nan_with_none (parseCell c))) ∧
      (recs.get ⟨i, hi⟩).map Prod.fst = raw.header) := by
  have hform := csv_ok_form self fs path raw recs hf h
  subst hform
  refine ⟨List.length_map _ _, ?_⟩
  intro i hi hi2
  have hget : (raw.rows.map
      (fun r => raw.header.zip (r.map (fun c => replace_nan_with_none (parseCell c))))).get ⟨i, hi⟩
      = raw.header.zip ((raw.rows.get ⟨i, hi2⟩).map
          (fun c => replace_nan_with_none (parseCell c))) := by
    simp only [List.get_eq_getElem, List.getElem_map]
  refine ⟨hget, ?_⟩
  rw [hget]
  refine List.map_fst_zip _ _ ?_
  rw [List.length_map]
  rw [hwf (raw.rows.get ⟨i, hi2⟩) (List.get_mem raw.rows i hi2)]

/-- Witness for C5 on the concrete 3-row fixture: 3 records come back,
in file order, keyed by the header. -/
theorem c5_row_count_order_and_keys_witness :
    fsC FILE_PATH = Option.some rawC ∧
    exC.csv_to_json_convertor fsC FILE_PATH = Except.ok recsC ∧
    recsC.length = rawC.rows.length := by
  refine ⟨rfl, rfl, ?_⟩
  exact (c5_row_count_order_and_keys exC fsC FILE_PATH rawC recsC rfl
    (by decide) rfl).1

/-- C6: whenever `insert_data_mongodb` returns normally, the returned
count is at most the number of submitted records (a `Nat`, hence
non-negative); and when the store accepts all submitted documents the
count equals the number of submitted records. -/
theorem c6_returned_count_bounded (self : NetworkDataExtract) (store : Store)
    (records : List Rec) (db coll : String) (n : Nat)
    (h : (self.insert_data_mongodb store records db coll).outcome = Except.ok n) :
    n ≤ records.length ∧
    ((∀ i r, store.accept i r = true) → n = records.length) := by
  have hn : n = records.length := by
    unfold NetworkDataExtract.insert_data_mongodb at h
    cases hp : store.pingResult with
    | error e =>
      rw [hp] at h
      exact Except.noConfusion h
    | ok u =>
      rw [hp] at h
      cases hm : mongo_insert_many store db coll records with
      | mk res store2 =>
        rw [hm] at h
        cases res with
        | error e => exact Except.noConfusion h
        | ok ids =>
          rw [Except.ok.injEq] at h
          subst h
          exact mongo_insert_many_ok_length store db coll records ids store2 hm
  subst hn
  exact ⟨Nat.le_refl _, fun _ => rfl⟩

/-- Witness for C6: a 1-record batch against an all-accepting store
returns exactly 1. -/
theorem c6_returned_count_bounded_witness :
    (exC.insert_data_mongodb storeAll [dupRec] "db" "coll").outcome = Except.ok 1 ∧
    (1 ≤ ([dupRec] : List Rec).length ∧
      ((∀ i r, storeAll.accept i r = true) → 1 = ([dupRec] : List Rec).length)) :=
  ⟨rfl, c6_returned_count_bounded exC storeAll [dupRec] "db" "coll" 1 rfl⟩

/-- C9: the entry point prints the loaded count and then the inserted
count when construction, loading and insertion all succeed; and whenever
the run ends in an error, the last printed line is that error's message
and the error is re-raised (the run's outcome is that error, never
swallowed). -/
theorem c9_entry_point_prints_and_reraises (env : String → Option String)
    (fs : String → Option RawCSV) (store : Store) :
    (∀ extractor recs n,
      NetworkDataExtract.init env = Except.ok extractor →
      extractor.csv_to_json_convertor fs FILE_PATH = Except.ok recs →
      (extractor.insert_data_mongodb store recs DATABASE COLLECTION).outcome = Except.ok n →
      main_run env fs store =
        (["Loaded " ++ toString recs.length ++ " records from CSV",
          "Inserted " ++ toString n ++ " records"], Except.ok ())) ∧
    (∀ e, (main_run env fs store).2 = Except.error e →
      (main_run env fs store).1.getLast? = Option.some e.message) := by
  constructor
  · intro extractor recs n h1 h2 h3
    unfold main_run
    rw [h1]
    dsimp only
    rw [h2]
    dsimp only
    rw [h3]
  · intro e he
    unfold main_run at he ⊢
    cases h1 : NetworkDataExtract.init env with
    | error e1 =>
      rw [h1] at he
      dsimp only at he ⊢
      rw [Except.error.injEq] at he
      subst he
      rfl
    | ok extractor =>
      rw [h1] at he
      dsimp only at he ⊢
      cases h2 : extractor.csv_to_json_convertor fs FILE_PATH with
      | error e2 =>
        rw [h2] at he
        dsimp only at he ⊢
        rw [Except.error.injEq] at he
        subst he
        rfl
      | ok records =>
        rw [h2] at he
        dsimp only at he ⊢
        cases h3 : (extractor.insert_data_mongodb store records DATABASE COLLECTION).outcome with
        | error e3 =>
          rw [h3] at he
          dsimp only at he ⊢
          rw [Except.error.injEq] at he
          subst he
          rfl
        | ok n =>
          rw [h3] at he
          exact Except.noConfusion he

/-- Witness for C9: a full successful run over the 3-row fixture prints
the loaded and inserted counts. -/
theorem c9_entry_point_prints_and_reraises_witness :
    main_run envC fsC storeAll
      = (["Loaded 3 records from CSV", "Inserted 3 records"], Except.ok ()) :=
  (c9_entry_point_prints_and_reraises envC fsC storeAll).1
    ⟨"mongodb+srv://example"⟩ recsC 3 rfl rfl rfl

end PushData
